import Mathlib

set_option maxRecDepth 10000

/-!
Shallow embedding of the SPICE streaming agent control/capture engine
(`src/spice-streaming-agent.cpp`), together with proofs about the protocol
handlers, the capture loop's error handling, the signal registration logic,
and the mutex discipline on the stream port.

Machine integers are modelled as `Nat` (bytes are `Nat` values below 256 by
construction of the byte lists); the one place where C signed arithmetic
matters (`max_codecs = len - 1` with `len : uint32_t` converted to `int`)
is modelled with `Int`.
-/

/-- `StreamDevHeader` of the SPICE stream-device protocol: an 8-byte header
with `protocol_version` (u8), `padding` (u8), `type` (u16 LE), `size` (u32 LE). -/
structure StreamDevHeader where
  protocol_version : Nat
  padding : Nat
  type : Nat
  size : Nat
deriving DecidableEq

/-- the protocol constant `STREAM_DEVICE_PROTOCOL` (value 1). -/
def STREAM_DEVICE_PROTOCOL : Nat := 1

/-- Modelled from the spec: the message type ids come from the external SPICE
stream-device header, which is not part of this repository. The spec pins
Capabilities to type id 1 (scenario S1: inbound `01 00 01 00 ...` is a
Capabilities message); the remaining ids are only required to be distinct. -/
def STREAM_TYPE_CAPABILITIES : Nat := 1

/-- Modelled from the spec: Format message type id (outbound). -/
def STREAM_TYPE_FORMAT : Nat := 2

/-- Modelled from the spec: Data message type id (outbound). -/
def STREAM_TYPE_DATA : Nat := 3

/-- Modelled from the spec: StartStop message type id (inbound). -/
def STREAM_TYPE_START_STOP : Nat := 4

/-- Modelled from the spec: NotifyError message type id (inbound). -/
def STREAM_TYPE_NOTIFY_ERROR : Nat := 5

/-- little-endian encoding of a 16-bit field. -/
def le16 (n : Nat) : List Nat := [n % 256, n / 256 % 256]

/-- little-endian encoding of a 32-bit field. -/
def le32 (n : Nat) : List Nat :=
  [n % 256, n / 256 % 256, n / 65536 % 256, n / 16777216 % 256]

/-- wire layout of `StreamDevHeader` (all fields little-endian). -/
def encodeHeader (h : StreamDevHeader) : List Nat :=
  [h.protocol_version % 256, h.padding % 256] ++ le16 h.type ++ le32 h.size

/-- reading a `StreamDevHeader` back from its first 8 bytes. -/
def decodeHeader (b : List Nat) : StreamDevHeader :=
  { protocol_version := b.getD 0 0
  , padding := b.getD 1 0
  , type := b.getD 2 0 + 256 * b.getD 3 0
  , size := b.getD 4 0 + 256 * b.getD 5 0 + 65536 * b.getD 6 0
      + 16777216 * b.getD 7 0 }

/-- the process-global session state of `spice-streaming-agent.cpp`:
`streaming_requested`, `quit_requested` and `client_codecs`
(a `std::set<SpiceVideoCodecType>`, modelled as a `Finset Nat`). -/
structure SessionState where
  streaming_requested : Bool
  quit_requested : Bool
  client_codecs : Finset Nat
deriving DecidableEq

/-- syslog entries that the modelled handlers emit. -/
inductive LogEntry where
  | StartStopInfo (start : Bool)
  | NotifyErr (error_code : Nat) (text : List Nat)
  | WriteErrLog
deriving DecidableEq

/-- the error exits of the modelled code, one constructor per throw site
(`std::runtime_error` carries a message in the source; here each throw site is
a distinct constructor so that theorems can tell the sites apart), plus the
`WriteError` / `ReadError` classes of the stream port (declared in
`error.hpp`, outside this repository's sources). -/
inductive AgentError where
  | MsgTooLong (len : Nat)
  | MalformedStartStop (num_codecs : Nat) (max_codecs : Int)
  | CapsTooLong (len : Nat)
  | NotifyErrorTooSmall (len : Nat)
  | NotifyErrorTooBig (len : Nat)
  | BadVersion (v : Nat)
  | UnknownType (t : Nat)
  | WriteError
  | ReadError
deriving DecidableEq

/-- the state a control-read step acts on: the session globals, the bytes
still readable from the device (`input`), the bytes written to the device so
far (`output`) and the syslog trail. -/
structure AgentState where
  session : SessionState
  input : List Nat
  output : List Nat
  log : List LogEntry
deriving DecidableEq

/-- `handle_stream_start_stop(stream_port, len)`: rejects bodies of 256 bytes
or more before reading; otherwise reads `len` bytes, sets
`streaming_requested := (msg[0] != 0)`, logs, clears `client_codecs`, checks
`msg[0] > max_codecs` with `max_codecs = (int)(len - 1)`, and on success
inserts the `msg[0]` listed codec ids. A short read is the stream port's
`ReadError`. -/
def handle_stream_start_stop (len : Nat) (st : AgentState) :
    Option AgentError × AgentState :=
  if 256 ≤ len then
    (some (AgentError.MsgTooLong len), st)
  else if st.input.length < len then
    (some AgentError.ReadError, st)
  else
    let msg := st.input.take len
    let st1 : AgentState := { st with input := st.input.drop len }
    let n := msg.headD 0
    let st2 : AgentState :=
      { st1 with
        session := { st1.session with streaming_requested := n != 0 }
        log := st1.log ++ [LogEntry.StartStopInfo (n != 0)] }
    let st3 : AgentState :=
      { st2 with session := { st2.session with client_codecs := ∅ } }
    let max_codecs : Int := (len : Int) - 1
    if (n : Int) > max_codecs then
      (some (AgentError.MalformedStartStop n max_codecs), st3)
    else
      (none,
       { st3 with
         session := { st3.session with
                      client_codecs := ((msg.drop 1).take n).toFinset } })

/-- Modelled from the spec: `STREAM_MSG_CAPABILITIES_MAX_BYTES` of the
external SPICE stream-device header (the fixed maximum capability body). -/
def STREAM_MSG_CAPABILITIES_MAX_BYTES : Nat := 1024

/-- the bytes of the Capabilities reply sent by `handle_stream_capabilities`:
a bare header `{STREAM_DEVICE_PROTOCOL, 0, STREAM_TYPE_CAPABILITIES, 0}`. -/
def capabilitiesReply : List Nat :=
  encodeHeader
    { protocol_version := STREAM_DEVICE_PROTOCOL
    , padding := 0
    , type := STREAM_TYPE_CAPABILITIES
    , size := 0 }

/-- `handle_stream_capabilities(stream_port, len)`: rejects bodies longer
than the fixed maximum before reading; otherwise reads and discards the body
and writes one empty-bodied Capabilities reply. -/
def handle_stream_capabilities (len : Nat) (st : AgentState) :
    Option AgentError × AgentState :=
  if STREAM_MSG_CAPABILITIES_MAX_BYTES < len then
    (some (AgentError.CapsTooLong len), st)
  else if st.input.length < len then
    (some AgentError.ReadError, st)
  else
    (none,
     { st with
       input := st.input.drop len
       output := st.output ++ capabilitiesReply })

/-- Modelled from the spec: `sizeof(StreamMsgNotifyError)`, the fixed
`error_code` (u32) body head of the external header — 4 bytes. -/
def sizeofStreamMsgNotifyError : Nat := 4

/-- `sizeof(StreamMsgNotifyError1K)`: the handler's stack struct, the fixed
head plus a 1024-byte text buffer. -/
def sizeofStreamMsgNotifyError1K : Nat := sizeofStreamMsgNotifyError + 1024

/-- the u32 little-endian value of the first four bytes of a list. -/
def le32Dec (b : List Nat) : Nat :=
  b.getD 0 0 + 256 * b.getD 1 0 + 65536 * b.getD 2 0 + 16777216 * b.getD 3 0

/-- what the `%s` format prints from a buffer: the bytes before the first
null byte. -/
def cString (b : List Nat) : List Nat := b.takeWhile (fun x => x != 0)

/-- `handle_stream_error(stream_port, len)` (NotifyError): rejects bodies
smaller than the fixed head; otherwise reads
`len_to_read = min(len, sizeof(msg) - 1)` bytes, null-terminates the text at
offset `len_to_read - sizeof(StreamMsgNotifyError)`, logs the code and the
text, and finally rejects the message as too big when `len_to_read < len`. -/
def handle_stream_error (len : Nat) (st : AgentState) :
    Option AgentError × AgentState :=
  if len < sizeofStreamMsgNotifyError then
    (some (AgentError.NotifyErrorTooSmall len), st)
  else
    let len_to_read := min len (sizeofStreamMsgNotifyError1K - 1)
    if st.input.length < len_to_read then
      (some AgentError.ReadError, st)
    else
      let data := st.input.take len_to_read
      let error_code := le32Dec data
      let text := cString ((data.drop sizeofStreamMsgNotifyError).take
          (len_to_read - sizeofStreamMsgNotifyError))
      let st1 : AgentState :=
        { st with
          input := st.input.drop len_to_read
          log := st.log ++ [LogEntry.NotifyErr error_code text] }
      if len_to_read < len then
        (some (AgentError.NotifyErrorTooBig len), st1)
      else
        (none, st1)

/-- `read_command_from_device(stream_port)`: reads the 8-byte header under
the port mutex, rejects a header whose `protocol_version` differs from
`STREAM_DEVICE_PROTOCOL` before reading any body byte, and otherwise
dispatches on `type`; an unlisted type is rejected. -/
def read_command_from_device (st : AgentState) :
    Option AgentError × AgentState :=
  if st.input.length < 8 then
    (some AgentError.ReadError, st)
  else
    let hdr := decodeHeader (st.input.take 8)
    let st1 : AgentState := { st with input := st.input.drop 8 }
    if hdr.protocol_version ≠ STREAM_DEVICE_PROTOCOL then
      (some (AgentError.BadVersion hdr.protocol_version), st1)
    else if hdr.type = STREAM_TYPE_CAPABILITIES then
      handle_stream_capabilities hdr.size st1
    else if hdr.type = STREAM_TYPE_NOTIFY_ERROR then
      handle_stream_error hdr.size st1
    else if hdr.type = STREAM_TYPE_START_STOP then
      handle_stream_start_stop hdr.size st1
    else
      (some (AgentError.UnknownType hdr.type), st1)

/-- `have_something_to_read(stream_port, blocking=false)`: a zero-timeout
poll, true when at least one byte is readable. -/
def have_something_to_read (st : AgentState) : Bool := !st.input.isEmpty

/-- `read_command(stream_port, blocking=false)`: the source's while loop with
`blocking = false` runs its body at most once — if `quit_requested` is unset
and the zero-timeout poll reports a readable byte, exactly one command is
processed and the loop breaks; otherwise the loop breaks with no action. -/
def read_command_nonblocking (st : AgentState) :
    Option AgentError × AgentState :=
  if st.session.quit_requested then (none, st)
  else if have_something_to_read st then read_command_from_device st
  else (none, st)

/-! ### Signal registration (`register_interrupts`, `handle_interrupt`) -/

/-- which signal handlers ended up installed by `register_interrupts`, and
whether the failure warning was logged. -/
structure InterruptRegistration where
  sigint_installed : Bool
  sigterm_installed : Bool
  warned : Bool
deriving DecidableEq

/-- `register_interrupts()`: the source evaluates
`(sigaction(SIGINT, &sa, NULL) != 0) && (sigaction(SIGTERM, &sa, NULL) != 0)`.
The first `sigaction` call always runs; because `&&` short-circuits, the
second `sigaction` call runs only when the first returned nonzero (failed).
The inputs say whether each `sigaction` call would succeed. -/
def register_interrupts (sigint_ok sigterm_ok : Bool) : InterruptRegistration :=
  let sigint_failed := !sigint_ok
  let sigterm_attempted := sigint_failed
  { sigint_installed := sigint_ok
  , sigterm_installed := sigterm_attempted && sigterm_ok
  , warned := sigint_failed && (sigterm_attempted && !sigterm_ok) }

/-- `handle_interrupt(intr)`: sets `quit_requested` and returns. -/
def handle_interrupt (st : SessionState) : SessionState :=
  { st with quit_requested := true }

/-- how delivering a signal ends the process. -/
inductive SignalOutcome where
  | handledCleanExit (status : Nat)
  | killedByDefaultDisposition
deriving DecidableEq

/-- Modelled from the spec: POSIX signal delivery, which is outside the
repository's code. If a handler is installed for SIGTERM, `handle_interrupt`
runs, `quit_requested` becomes true, the loops drain and `main` returns
`EXIT_SUCCESS` (status 0); with no handler installed, SIGTERM's default
disposition terminates the process abnormally. -/
def deliver_sigterm (reg : InterruptRegistration) (st : SessionState) :
    SignalOutcome × SessionState :=
  if reg.sigterm_installed then
    (SignalOutcome.handledCleanExit 0, handle_interrupt st)
  else
    (SignalOutcome.killedByDefaultDisposition, st)

/-! ### Stream-port event traces (mutex discipline of the senders) -/

/-- an action on the stream port: taking or releasing `stream_port.mutex`,
or writing bytes with `stream_port.write`. -/
inductive PortEvent where
  | Lock
  | Unlock
  | Write (bytes : List Nat)
deriving DecidableEq

/-- the threads sharing the stream port: the capture loop and the detached
cursor updater. -/
inductive Tid where
  | capture
  | cursor
deriving DecidableEq

/-- legality of one port event given the current mutex holder: a `Lock`
happens only when the mutex is free (a contending thread blocks, so its
`Lock` event cannot appear while another thread holds the mutex), and
`Unlock` / `Write` happen only in the holding thread. -/
def mutexStep (holder : Option Tid) (e : Tid × PortEvent) :
    Option (Option Tid) :=
  match holder, e with
  | none, (t, PortEvent.Lock) => some (some t)
  | none, (_, PortEvent.Unlock) => none
  | none, (_, PortEvent.Write _) => none
  | some _, (_, PortEvent.Lock) => none
  | some h, (t, PortEvent.Unlock) => if h = t then some none else none
  | some h, (t, PortEvent.Write _) => if h = t then some (some h) else none

/-- running a tagged event trace from a mutex state; `none` marks an illegal
trace. -/
def mutexRun (holder : Option Tid) :
    List (Tid × PortEvent) → Option (Option Tid)
  | [] => some holder
  | e :: rest =>
    match mutexStep holder e with
    | none => none
    | some h2 => mutexRun h2 rest

/-- a tagged trace is a possible interleaving of the port users exactly when
every event respects the mutex, starting from a free mutex. -/
def mutexOK (t : List (Tid × PortEvent)) : Bool := (mutexRun none t).isSome

/-- the events one thread contributes to a tagged trace, in order. -/
def projEvents (tid : Tid) (t : List (Tid × PortEvent)) : List PortEvent :=
  (t.filter (fun e => e.1 == tid)).map (fun e => e.2)

/-- recognizer for `Lock` events. -/
def isLock : PortEvent → Bool
  | PortEvent.Lock => true
  | _ => false

/-- how many times a plain event sequence acquires the mutex. -/
def lockCount (es : List PortEvent) : Nat := (es.filter isLock).length

/-- wire bytes of a `SpiceStreamFormatMessage`: the 8-byte header with
`type = STREAM_TYPE_FORMAT` and `size = sizeof(StreamMsgFormat) = 12`,
followed by `width` (u32 LE), `height` (u32 LE), `codec` (u8) and three
padding bytes (the struct is zeroed by `memset`). The body layout is
modelled from the spec (`StreamMsgFormat` is in the external header). -/
def encodeFormatMessage (w h c : Nat) : List Nat :=
  encodeHeader
    { protocol_version := STREAM_DEVICE_PROTOCOL
    , padding := 0
    , type := STREAM_TYPE_FORMAT
    , size := 12 } ++ le32 w ++ le32 h ++ [c % 256] ++ [0, 0, 0]

/-- wire bytes of a `SpiceStreamDataMessage` header: the 8-byte header with
`type = STREAM_TYPE_DATA` and `size` = the frame's byte count
(`StreamMsgData` has an empty fixed part). -/
def encodeDataHeader (size : Nat) : List Nat :=
  encodeHeader
    { protocol_version := STREAM_DEVICE_PROTOCOL
    , padding := 0
    , type := STREAM_TYPE_DATA
    , size := size }

/-- `spice_stream_send_format(stream_port, w, h, c)`: one `lock_guard` scope
around a single write of the 20-byte format message. -/
def spice_stream_send_format_events (w h c : Nat) : List PortEvent :=
  [PortEvent.Lock, PortEvent.Write (encodeFormatMessage w h c),
   PortEvent.Unlock]

/-- `spice_stream_send_frame(stream_port, buf, size)`: one `lock_guard` scope
around two writes — the 8-byte data header, then the frame payload. -/
def spice_stream_send_frame_events (buf : List Nat) : List PortEvent :=
  [PortEvent.Lock, PortEvent.Write (encodeDataHeader buf.length),
   PortEvent.Write buf, PortEvent.Unlock]

/-- the port events of one capture iteration's send phase in `do_capture`:
when `frame.stream_start` holds, `spice_stream_send_format` runs first, then
`spice_stream_send_frame` — two separate `lock_guard` scopes. -/
def capture_send_events (stream_start : Bool) (w h c : Nat)
    (buf : List Nat) : List PortEvent :=
  (if stream_start then spice_stream_send_format_events w h c else []) ++
    spice_stream_send_frame_events buf

/-- Modelled from the spec: the cursor updater (its source file is not under
`src/`) writes each cursor message via the stream port under the shared write
mutex — one lock scope per message. -/
def cursor_send_events (payload : List Nat) : List PortEvent :=
  [PortEvent.Lock, PortEvent.Write payload, PortEvent.Unlock]

/-! ### The capture loop body (`do_capture`) and the supervisor (`main`) -/

/-- `FrameInfo` as handed over by a capture provider. -/
structure FrameInfo where
  buffer : List Nat
  stream_start : Bool
  width : Nat
  height : Nat
deriving DecidableEq

/-- how one CAPTURING iteration of `do_capture` ends. -/
inductive IterOutcome where
  | ContinueCapturing
  | BackToIdle
  | Raise (e : AgentError)
deriving DecidableEq

/-- one iteration of the inner CAPTURING loop of `do_capture`, with the
results of the externally-visible actions as inputs: the capture provider's
`CaptureFrame` result, then (when `frame.stream_start`) the outcome of
`spice_stream_send_format`, then the outcome of `spice_stream_send_frame` —
only this send sits in a `try` block whose `catch (const WriteError&)` logs
and breaks out of the inner loop — and finally the outcome of the
non-blocking `read_command`. Any other error propagates out of
`do_capture`. -/
def capture_iteration (frame_result : Except AgentError FrameInfo)
    (format_write_result data_write_result control_result :
      Option AgentError) : IterOutcome × List LogEntry :=
  match frame_result with
  | Except.error e => (IterOutcome.Raise e, [])
  | Except.ok frame =>
    match (if frame.stream_start then format_write_result else none) with
    | some e => (IterOutcome.Raise e, [])
    | none =>
      match data_write_result with
      | some AgentError.WriteError =>
        (IterOutcome.BackToIdle, [LogEntry.WriteErrLog])
      | some e => (IterOutcome.Raise e, [])
      | none =>
        match control_result with
        | some e => (IterOutcome.Raise e, [])
        | none => (IterOutcome.ContinueCapturing, [])

/-- what escapes `do_capture`: a raised error unwinds out of the loop; the
other two outcomes keep the loop (and the process) running. -/
def do_capture_propagates : IterOutcome → Option AgentError
  | IterOutcome.Raise e => some e
  | _ => none

/-- `main`'s catch-all: an error that reaches the supervisor is logged and
the process exits `EXIT_FAILURE` (1); a clean return exits
`EXIT_SUCCESS` (0). -/
def supervisor_exit_code (propagated : Option AgentError) : Nat :=
  match propagated with
  | none => 0
  | some _ => 1

/-! ### Helper lemmas -/

theorem mutexRun_append (h : Option Tid) (l1 l2 : List (Tid × PortEvent)) :
    mutexRun h (l1 ++ l2) = (mutexRun h l1).bind fun h2 => mutexRun h2 l2 := by
  induction l1 generalizing h with
  | nil => simp [mutexRun]
  | cons e rest ih =>
    cases hs : mutexStep h e with
    | none => simp [mutexRun, hs]
    | some h2 => simp [mutexRun, hs, ih]

theorem mutexStep_write_cases {h h2 : Option Tid} {A : Tid} {b : List Nat}
    (hst : mutexStep h (A, PortEvent.Write b) = some h2) :
    h = some A ∧ h2 = some A := by
  cases h with
  | none => simp [mutexStep] at hst
  | some C =>
    by_cases hCA : C = A
    · subst hCA
      simp [mutexStep] at hst
      exact ⟨rfl, hst ▸ rfl⟩
    · simp [mutexStep, hCA] at hst

theorem mutexStep_foreign {A B : Tid} (hne : B ≠ A) (e : PortEvent) :
    mutexStep (some A) (B, e) = none := by
  cases e with
  | Lock => rfl
  | Unlock => simp [mutexStep, Ne.symm hne]
  | Write b => simp [mutexStep, Ne.symm hne]

/-- in a mutex-legal trace, nothing at all can happen between two writes of
the same thread when that thread has no events in between: the writer holds
the mutex across the gap, so every other thread is excluded. -/
theorem mutex_write_section (t1 t2 t3 : List (Tid × PortEvent)) (A : Tid)
    (b : List Nat) (e2 : Tid × PortEvent)
    (hok : mutexOK (t1 ++ (A, PortEvent.Write b) :: (t2 ++ e2 :: t3)) = true)
    (hfor : ∀ x ∈ t2, x.1 ≠ A) :
    t2 = [] := by
  cases t2 with
  | nil => rfl
  | cons y rest =>
    exfalso
    unfold mutexOK at hok
    rw [mutexRun_append] at hok
    cases hr1 : mutexRun none t1 with
    | none => rw [hr1] at hok; simp at hok
    | some h1 =>
      rw [hr1] at hok
      simp only [Option.some_bind] at hok
      cases hs1 : mutexStep h1 (A, PortEvent.Write b) with
      | none => simp [mutexRun, hs1] at hok
      | some h2 =>
        obtain ⟨-, hh2⟩ := mutexStep_write_cases hs1
        subst hh2
        have hyA : y.1 ≠ A := hfor y (by simp)
        have hst : mutexStep (some A) y = none := by
          obtain ⟨yt, ye⟩ := y
          exact mutexStep_foreign hyA ye
        simp [mutexRun, hs1, hst] at hok

/-! ### Claim theorems -/

/-- Claim C1 (code evaluation at the failing input): when the SIGINT
`sigaction` succeeds — the normal case — the source's `&&` short-circuits and
the SIGTERM `sigaction` is never executed, so no SIGTERM handler is
installed and delivering SIGTERM kills the process by default disposition
instead of the claimed clean status-0 exit. The SIGINT handler itself does
set `quit_requested`, and the SIGTERM handler would be installed only in the
inverted case where the SIGINT registration failed. -/
theorem C1_sigterm_not_registered :
    (handle_interrupt
      { streaming_requested := false, quit_requested := false
      , client_codecs := ∅ }).quit_requested = true ∧
    register_interrupts true true =
      { sigint_installed := true, sigterm_installed := false
      , warned := false } ∧
    (deliver_sigterm (register_interrupts true true)
      { streaming_requested := false, quit_requested := false
      , client_codecs := ∅ }).1 =
      SignalOutcome.killedByDefaultDisposition ∧
    (register_interrupts false true).sigterm_installed = true := by
  refine ⟨rfl, rfl, rfl, rfl⟩

/-- a mutex-legal interleaving of one capture iteration (with
`stream_start = true`) and one cursor message in which the cursor message
sits on the wire between the capture iteration's Format message and its Data
message. -/
def formatCursorDataTrace : List (Tid × PortEvent) :=
  [(Tid.capture, PortEvent.Lock),
   (Tid.capture, PortEvent.Write (encodeFormatMessage 4 4 1)),
   (Tid.capture, PortEvent.Unlock),
   (Tid.cursor, PortEvent.Lock),
   (Tid.cursor, PortEvent.Write [9]),
   (Tid.cursor, PortEvent.Unlock),
   (Tid.capture, PortEvent.Lock),
   (Tid.capture, PortEvent.Write (encodeDataHeader 1)),
   (Tid.capture, PortEvent.Write [171]),
   (Tid.capture, PortEvent.Unlock)]

/-- Claim C2 is false as stated: the capture iteration sends Format and Data
under two separate holds of the port mutex (its event sequence acquires the
lock twice), and `formatCursorDataTrace` is a mutex-legal interleaving with
the cursor sender — its projections are exactly the capture iteration's
events and one cursor message — in which the cursor write (index 4) lands
between the Format write (index 1) and the Data-header write (index 7). -/
theorem C2_cursor_between_format_and_data :
    mutexOK formatCursorDataTrace = true ∧
    projEvents Tid.capture formatCursorDataTrace =
      capture_send_events true 4 4 1 [171] ∧
    projEvents Tid.cursor formatCursorDataTrace =
      cursor_send_events [9] ∧
    lockCount (capture_send_events true 4 4 1 [171]) = 2 ∧
    formatCursorDataTrace.getD 1 (Tid.capture, PortEvent.Lock) =
      (Tid.capture, PortEvent.Write (encodeFormatMessage 4 4 1)) ∧
    formatCursorDataTrace.getD 4 (Tid.capture, PortEvent.Lock) =
      (Tid.cursor, PortEvent.Write [9]) ∧
    formatCursorDataTrace.getD 7 (Tid.capture, PortEvent.Lock) =
      (Tid.capture, PortEvent.Write (encodeDataHeader 1)) := by
  refine ⟨rfl, rfl, rfl, rfl, rfl, rfl, rfl⟩

/-- Claim C2 (amended): for a frame with `stream_start = true` the Format
message is sent before the frame's Data message, but under two separate
mutex holds (`lockCount = 2`), one per send function; the mutex still makes
each single message atomic — in any mutex-legal interleaving, nothing at all
can come between the Data header write and the Data payload write of
`spice_stream_send_frame`. -/
theorem C2_format_before_data_two_holds (w h c : Nat) (buf : List Nat)
    (t1 t2 t3 : List (Tid × PortEvent))
    (hok : mutexOK (t1 ++
        (Tid.capture, PortEvent.Write (encodeDataHeader buf.length)) ::
        (t2 ++ (Tid.capture, PortEvent.Write buf) :: t3)) = true)
    (hfor : ∀ x ∈ t2, x.1 ≠ Tid.capture) :
    t2 = [] ∧
    capture_send_events true w h c buf =
      spice_stream_send_format_events w h c ++
        spice_stream_send_frame_events buf ∧
    lockCount (capture_send_events true w h c buf) = 2 :=
  ⟨mutex_write_section t1 t2 t3 Tid.capture (encodeDataHeader buf.length)
      _ hok hfor, rfl, rfl⟩

theorem C2_format_before_data_two_holds_witness :
    ([] : List (Tid × PortEvent)) = [] ∧
    capture_send_events true 4 4 1 [171] =
      spice_stream_send_format_events 4 4 1 ++
        spice_stream_send_frame_events [171] ∧
    lockCount (capture_send_events true 4 4 1 [171]) = 2 :=
  C2_format_before_data_two_holds 4 4 1 [171]
    [(Tid.capture, PortEvent.Lock)] [] [(Tid.capture, PortEvent.Unlock)]
    (by decide) (by simp)

/-- Claim C8: in a capture iteration, a `WriteError` raised while sending the
Data message is caught, logged, and ends the inner loop (`BackToIdle`) —
`do_capture` does not propagate it, so the process keeps running; every
other error — a capture error, an error sending the Format message (which is
outside the `try` block), a non-WriteError failure of the data send, or a
control-path error — propagates, and an error reaching the supervisor makes
the process exit nonzero. -/
theorem C8_only_data_write_errors_recovered :
    (∀ f ctl, capture_iteration (Except.ok f) none
        (some AgentError.WriteError) ctl =
        (IterOutcome.BackToIdle, [LogEntry.WriteErrLog])) ∧
    (∀ f ctl e, e ≠ AgentError.WriteError →
      capture_iteration (Except.ok f) none (some e) ctl =
        (IterOutcome.Raise e, [])) ∧
    (∀ fw dw ctl e, capture_iteration (Except.error e) fw dw ctl =
        (IterOutcome.Raise e, [])) ∧
    (∀ f dw ctl e, f.stream_start = true →
      capture_iteration (Except.ok f) (some e) dw ctl =
        (IterOutcome.Raise e, [])) ∧
    (∀ f e, capture_iteration (Except.ok f) none none (some e) =
        (IterOutcome.Raise e, [])) ∧
    (∀ e, supervisor_exit_code
        (do_capture_propagates (IterOutcome.Raise e)) = 1) ∧
    do_capture_propagates IterOutcome.BackToIdle = none := by
  refine ⟨?_, ?_, ?_, ?_, ?_, ?_, rfl⟩
  · intro f ctl
    cases hss : f.stream_start <;> simp [capture_iteration, hss]
  · intro f ctl e he
    cases hss : f.stream_start <;>
      cases e <;>
        first
        | exact absurd rfl he
        | simp [capture_iteration, hss]
  · intro fw dw ctl e
    rfl
  · intro f dw ctl e hss
    simp [capture_iteration, hss]
  · intro f e
    cases hss : f.stream_start <;> simp [capture_iteration, hss]
  · intro e
    rfl

theorem C8_only_data_write_errors_recovered_witness :
    capture_iteration (Except.ok ⟨[7], true, 4, 4⟩) none
      (some AgentError.WriteError) none =
      (IterOutcome.BackToIdle, [LogEntry.WriteErrLog]) ∧
    capture_iteration (Except.ok ⟨[7], false, 4, 4⟩) none
      (some AgentError.ReadError) none =
      (IterOutcome.Raise AgentError.ReadError, []) ∧
    capture_iteration (Except.error AgentError.ReadError) none none none =
      (IterOutcome.Raise AgentError.ReadError, []) ∧
    capture_iteration (Except.ok ⟨[7], true, 4, 4⟩)
      (some AgentError.WriteError) none none =
      (IterOutcome.Raise AgentError.WriteError, []) ∧
    capture_iteration (Except.ok ⟨[7], false, 4, 4⟩) none none
      (some AgentError.ReadError) =
      (IterOutcome.Raise AgentError.ReadError, []) ∧
    supervisor_exit_code
      (do_capture_propagates
        (IterOutcome.Raise AgentError.ReadError)) = 1 :=
  ⟨C8_only_data_write_errors_recovered.1 _ _,
   C8_only_data_write_errors_recovered.2.1 _ _ _ (by decide),
   C8_only_data_write_errors_recovered.2.2.1 _ _ _ _,
   C8_only_data_write_errors_recovered.2.2.2.1 _ _ _ _ rfl,
   C8_only_data_write_errors_recovered.2.2.2.2.1 _ _,
   C8_only_data_write_errors_recovered.2.2.2.2.2.1 _⟩

theorem headD_take {l : List Nat} {len : Nat} (h : 1 ≤ len) :
    (l.take len).headD 0 = l.headD 0 := by
  cases l with
  | nil => simp
  | cons a t =>
    cases len with
    | zero => omega
    | succ k => simp

/-- accepted StartStop: for `1 ≤ len < 256` with enough input and
`num_codecs ≤ len - 1`, the handler consumes the body, sets the streaming
flag, logs, and replaces `client_codecs` with the listed ids. -/
theorem handle_stream_start_stop_ok (len : Nat) (st : AgentState)
    (h1 : 1 ≤ len) (h2 : len < 256) (hlen : len ≤ st.input.length)
    (hmax : st.input.headD 0 ≤ len - 1) :
    handle_stream_start_stop len st =
      (none,
       { session :=
           { streaming_requested := st.input.headD 0 != 0
           , quit_requested := st.session.quit_requested
           , client_codecs :=
               (((st.input.take len).drop 1).take
                   (st.input.headD 0)).toFinset }
       , input := st.input.drop len
       , output := st.output
       , log := st.log ++
           [LogEntry.StartStopInfo (st.input.headD 0 != 0)] }) := by
  have hh : (st.input.take len).headD 0 = st.input.headD 0 := headD_take h1
  simp only [handle_stream_start_stop]
  rw [if_neg (by omega), if_neg (by omega), hh, if_neg (by omega)]

/-- malformed StartStop: for `1 ≤ len < 256` with enough input and
`num_codecs > len - 1`, the handler has already consumed the body, set the
streaming flag, logged, and cleared `client_codecs` when it raises the
malformed-StartStop error. -/
theorem handle_stream_start_stop_malformed (len : Nat) (st : AgentState)
    (h1 : 1 ≤ len) (h2 : len < 256) (hlen : len ≤ st.input.length)
    (hmal : len - 1 < st.input.headD 0) :
    handle_stream_start_stop len st =
      (some (AgentError.MalformedStartStop (st.input.headD 0)
          ((len : Int) - 1)),
       { session :=
           { streaming_requested := st.input.headD 0 != 0
           , quit_requested := st.session.quit_requested
           , client_codecs := ∅ }
       , input := st.input.drop len
       , output := st.output
       , log := st.log ++
           [LogEntry.StartStopInfo (st.input.headD 0 != 0)] }) := by
  have hh : (st.input.take len).headD 0 = st.input.headD 0 := headD_take h1
  simp only [handle_stream_start_stop]
  rw [if_neg (by omega), if_neg (by omega), hh, if_pos (by omega)]

def fullByteStartStopState : AgentState :=
  { session := { streaming_requested := false, quit_requested := false
               , client_codecs := ∅ }
  , input := 255 :: List.replicate 255 1, output := [], log := [] }

/-- Claim C3 is false as stated: the well-formed StartStop with
`num_codecs = 255` followed by 255 codec-id bytes has a 256-byte body, which
the handler rejects with the size error before reading anything — the
session state is left unchanged, so `streaming_requested` stays `false`
(the claim demands `255 > 0`, i.e. `true`) and `client_codecs` stays empty
(the claim demands the nonempty set of the listed ids). -/
theorem C3_num_codecs_255_rejected :
    (255 :: List.replicate 255 1).headD 0 = 255 ∧
    (255 :: List.replicate 255 1).length = 1 + 255 ∧
    handle_stream_start_stop 256 fullByteStartStopState =
      (some (AgentError.MsgTooLong 256), fullByteStartStopState) ∧
    (handle_stream_start_stop
        256 fullByteStartStopState).2.session.streaming_requested = false ∧
    (handle_stream_start_stop
        256 fullByteStartStopState).2.session.client_codecs = ∅ := by
  exact ⟨by decide, by decide, by decide, by decide, by decide⟩

/-- Claim C3 (amended): after a well-formed StartStop whose body fits the
handler's buffer — `1 ≤ len < 256`, enough bytes readable, and
`num_codecs = n ≤ len - 1` (so `n ≤ 254`) — no error is raised,
`client_codecs` is exactly the set of the `n` listed codec ids (cardinality
`n` when they are distinct), and `streaming_requested` holds exactly when
`n > 0`; the one excluded well-formed shape, `num_codecs = 255` with a
256-byte body, is rejected with a size error and leaves the state
unchanged. -/
theorem C3_start_stop_sets_codecs_and_flag (len : Nat) (st : AgentState)
    (n : Nat) (h1 : 1 ≤ len) (h2 : len < 256)
    (hlen : len ≤ st.input.length) (hn : st.input.headD 0 = n)
    (hmax : n ≤ len - 1) :
    (handle_stream_start_stop len st).1 = none ∧
    (handle_stream_start_stop len st).2.session.client_codecs =
      (((st.input.take len).drop 1).take n).toFinset ∧
    ((handle_stream_start_stop len st).2.session.streaming_requested = true
      ↔ 0 < n) ∧
    ((((st.input.take len).drop 1).take n).Nodup →
      (handle_stream_start_stop len st).2.session.client_codecs.card = n) ∧
    (∀ st2 : AgentState, handle_stream_start_stop 256 st2 =
      (some (AgentError.MsgTooLong 256), st2)) := by
  subst hn
  rw [handle_stream_start_stop_ok len st h1 h2 hlen hmax]
  refine ⟨rfl, rfl, ?_, ?_, ?_⟩
  · simp [bne_iff_ne, Nat.pos_iff_ne_zero]
  · intro hnd
    rw [List.toFinset_card_of_nodup hnd]
    simp only [List.length_take, List.length_drop]
    omega
  · intro st2
    simp only [handle_stream_start_stop]
    rw [if_pos (by omega)]

def startStopState : AgentState :=
  { session := { streaming_requested := false, quit_requested := false
               , client_codecs := ∅ }
  , input := [2, 1, 3], output := [], log := [] }

theorem C3_start_stop_sets_codecs_and_flag_witness :
    (handle_stream_start_stop 3 startStopState).1 = none ∧
    (handle_stream_start_stop 3 startStopState).2.session.client_codecs =
      ((([2, 1, 3].take 3).drop 1).take 2).toFinset ∧
    ((handle_stream_start_stop 3
        startStopState).2.session.streaming_requested = true ↔ 0 < 2) ∧
    (((([2, 1, 3].take 3).drop 1).take 2).Nodup →
      (handle_stream_start_stop
          3 startStopState).2.session.client_codecs.card = 2) ∧
    handle_stream_start_stop 256 fullByteStartStopState =
      (some (AgentError.MsgTooLong 256), fullByteStartStopState) :=
  ⟨(C3_start_stop_sets_codecs_and_flag 3 startStopState 2 (by decide)
      (by decide) (by decide) (by decide) (by decide)).1,
   (C3_start_stop_sets_codecs_and_flag 3 startStopState 2 (by decide)
      (by decide) (by decide) (by decide) (by decide)).2.1,
   (C3_start_stop_sets_codecs_and_flag 3 startStopState 2 (by decide)
      (by decide) (by decide) (by decide) (by decide)).2.2.1,
   (C3_start_stop_sets_codecs_and_flag 3 startStopState 2 (by decide)
      (by decide) (by decide) (by decide) (by decide)).2.2.2.1,
   (C3_start_stop_sets_codecs_and_flag 3 startStopState 2 (by decide)
      (by decide) (by decide) (by decide) (by decide)).2.2.2.2
     fullByteStartStopState⟩

def oversizeStartStopState : AgentState :=
  { session := { streaming_requested := false, quit_requested := false
               , client_codecs := ∅ }
  , input := List.replicate 300 0, output := [], log := [] }

/-- Claim C4 is false as stated: a StartStop with body length 300 and
`num_codecs = 0` satisfies `num_codecs ≤ body_len - 1`, yet the handler
raises the size error (bodies of 256 bytes or more are rejected before the
`num_codecs` check), so not every StartStop with
`num_codecs ≤ body_len - 1` is accepted. -/
theorem C4_oversize_start_stop_rejected :
    (List.replicate 300 0).headD 0 ≤ 300 - 1 ∧
    (handle_stream_start_stop 300 oversizeStartStopState).1 =
      some (AgentError.MsgTooLong 300) := by
  exact ⟨by decide, by decide⟩

/-- Claim C4 (amended): a StartStop with `body_len ≥ 256` raises the
size error before reading any body byte; for `1 ≤ body_len < 256` the
malformed-StartStop error is raised iff `num_codecs > body_len - 1`, and
every such StartStop with `num_codecs ≤ body_len - 1` is accepted without
error. -/
theorem C4_malformed_iff_within_size_limit (len : Nat) (st : AgentState)
    (h1 : 1 ≤ len) (hlen : len ≤ st.input.length) :
    (256 ≤ len →
      handle_stream_start_stop len st =
        (some (AgentError.MsgTooLong len), st)) ∧
    (len < 256 →
      ((handle_stream_start_stop len st).1 =
          some (AgentError.MalformedStartStop (st.input.headD 0)
            ((len : Int) - 1))
        ↔ len - 1 < st.input.headD 0)) ∧
    (len < 256 → st.input.headD 0 ≤ len - 1 →
      (handle_stream_start_stop len st).1 = none) := by
  refine ⟨?_, ?_, ?_⟩
  · intro hbig
    simp only [handle_stream_start_stop]
    rw [if_pos hbig]
  · intro hsmall
    by_cases hc : len - 1 < st.input.headD 0
    · rw [handle_stream_start_stop_malformed len st h1 hsmall hlen hc]
      exact ⟨fun _ => hc, fun _ => rfl⟩
    · push_neg at hc
      rw [handle_stream_start_stop_ok len st h1 hsmall hlen hc]
      constructor
      · intro h
        simp at h
      · intro h
        omega
  · intro hsmall hle
    rw [handle_stream_start_stop_ok len st h1 hsmall hlen hle]

def malformedStartStopState : AgentState :=
  { session := { streaming_requested := false, quit_requested := false
               , client_codecs := ∅ }
  , input := [5, 1], output := [], log := [] }

theorem C4_malformed_iff_within_size_limit_witness :
    handle_stream_start_stop 300 oversizeStartStopState =
      (some (AgentError.MsgTooLong 300), oversizeStartStopState) ∧
    ((handle_stream_start_stop 2 malformedStartStopState).1 =
        some (AgentError.MalformedStartStop 5 1) ↔ 2 - 1 < 5) ∧
    (handle_stream_start_stop 3 startStopState).1 = none :=
  ⟨(C4_malformed_iff_within_size_limit 300 oversizeStartStopState
      (by decide) (by decide)).1 (by decide),
   (C4_malformed_iff_within_size_limit 2 malformedStartStopState
      (by decide) (by decide)).2.1 (by decide),
   (C4_malformed_iff_within_size_limit 3 startStopState
      (by decide) (by decide)).2.2 (by decide) (by decide)⟩

/-- Claim C10: when a StartStop with `1 ≤ len < 256` is malformed
(`num_codecs > len - 1`), the malformed error is raised only after
`streaming_requested` has been set to `num_codecs != 0` and `client_codecs`
has been cleared — the operation is not atomic with respect to errors. -/
theorem C10_malformed_start_stop_mutates_state (len : Nat)
    (st : AgentState) (n : Nat) (h1 : 1 ≤ len) (h2 : len < 256)
    (hlen : len ≤ st.input.length) (hn : st.input.headD 0 = n)
    (hmal : len - 1 < n) :
    (handle_stream_start_stop len st).1 =
      some (AgentError.MalformedStartStop n ((len : Int) - 1)) ∧
    (handle_stream_start_stop len st).2.session.streaming_requested =
      (n != 0) ∧
    (handle_stream_start_stop len st).2.session.client_codecs = ∅ ∧
    (handle_stream_start_stop len st).2.session.quit_requested =
      st.session.quit_requested := by
  subst hn
  rw [handle_stream_start_stop_malformed len st h1 h2 hlen hmal]
  exact ⟨rfl, rfl, rfl, rfl⟩

theorem C10_malformed_start_stop_mutates_state_witness :
    (handle_stream_start_stop 2 malformedStartStopState).1 =
      some (AgentError.MalformedStartStop 5 1) ∧
    (handle_stream_start_stop
        2 malformedStartStopState).2.session.streaming_requested =
      (5 != 0) ∧
    (handle_stream_start_stop
        2 malformedStartStopState).2.session.client_codecs = ∅ ∧
    (handle_stream_start_stop
        2 malformedStartStopState).2.session.quit_requested =
      malformedStartStopState.session.quit_requested :=
  C10_malformed_start_stop_mutates_state 2 malformedStartStopState 5
    (by decide) (by decide) (by decide) (by decide) (by decide)

def oversizeNotifyState : AgentState :=
  { session := { streaming_requested := false, quit_requested := false
               , client_codecs := ∅ }
  , input := List.replicate 1028 7, output := [], log := [] }

/-- Claim C5 is false as stated: a NotifyError body of
`prefix + 1024 = 1028` bytes lies inside the claim's inclusive logging
range, yet the handler raises the oversize error for it; moreover it reads
only `min(len, 1027)` = 1027 bytes from the port (one byte of input
remains), not the claimed cap of prefix + 1024. -/
theorem C5_notify_error_cap_off_by_one :
    (handle_stream_error 1028 oversizeNotifyState).1 =
      some (AgentError.NotifyErrorTooBig 1028) ∧
    (handle_stream_error 1028 oversizeNotifyState).2.input.length = 1 := by
  exact ⟨by decide, by decide⟩

/-- Claim C5 (amended): a NotifyError body below the 4-byte `error_code`
head is rejected; a body of `4 ≤ len ≤ 1027` bytes (head plus at most 1023
text bytes — the 1024-byte buffer keeps one byte for the null terminator) is
read in full, logged (code plus truncated null-terminated text) and raises
no error; a larger body has exactly 1027 bytes read from the port and then
raises the oversize error (after logging the truncated text). -/
theorem C5_notify_error_thresholds (len : Nat) (st : AgentState) :
    (len < 4 → handle_stream_error len st =
      (some (AgentError.NotifyErrorTooSmall len), st)) ∧
    (4 ≤ len → len ≤ 1027 → len ≤ st.input.length →
      handle_stream_error len st =
        (none,
         { st with
           input := st.input.drop len
           log := st.log ++
             [LogEntry.NotifyErr (le32Dec (st.input.take len))
               (cString (((st.input.take len).drop 4).take (len - 4)))] })) ∧
    (1027 < len → 1027 ≤ st.input.length →
      handle_stream_error len st =
        (some (AgentError.NotifyErrorTooBig len),
         { st with
           input := st.input.drop 1027
           log := st.log ++
             [LogEntry.NotifyErr (le32Dec (st.input.take 1027))
               (cString (((st.input.take 1027).drop 4).take 1023))] })) := by
  refine ⟨?_, ?_, ?_⟩
  · intro hsmall
    have hc : len < sizeofStreamMsgNotifyError := hsmall
    simp only [handle_stream_error]
    rw [if_pos hc]
  · intro h4 hcap hlen
    have hm : min len (sizeofStreamMsgNotifyError1K - 1) = len := by
      simp only [sizeofStreamMsgNotifyError1K, sizeofStreamMsgNotifyError]
      omega
    have hc1 : ¬ len < sizeofStreamMsgNotifyError := by
      simp only [sizeofStreamMsgNotifyError]
      omega
    simp only [handle_stream_error]
    rw [hm, if_neg hc1, if_neg (by omega), if_neg (by omega)]
    simp only [sizeofStreamMsgNotifyError]
  · intro hbig hlen
    have hm : min len (sizeofStreamMsgNotifyError1K - 1) = 1027 := by
      simp only [sizeofStreamMsgNotifyError1K, sizeofStreamMsgNotifyError]
      omega
    have hc1 : ¬ len < sizeofStreamMsgNotifyError := by
      simp only [sizeofStreamMsgNotifyError]
      omega
    simp only [handle_stream_error]
    rw [hm, if_neg hc1, if_neg (by omega), if_pos (by omega)]
    simp only [sizeofStreamMsgNotifyError]

def smallNotifyState : AgentState :=
  { session := { streaming_requested := false, quit_requested := false
               , client_codecs := ∅ }
  , input := [1, 0, 0, 0, 65, 66], output := [], log := [] }

theorem C5_notify_error_thresholds_witness :
    handle_stream_error 3 smallNotifyState =
      (some (AgentError.NotifyErrorTooSmall 3), smallNotifyState) ∧
    handle_stream_error 6 smallNotifyState =
      (none,
       { smallNotifyState with
         input := smallNotifyState.input.drop 6
         log := smallNotifyState.log ++
           [LogEntry.NotifyErr (le32Dec (smallNotifyState.input.take 6))
             (cString (((smallNotifyState.input.take 6).drop 4).take 2))] }) ∧
    handle_stream_error 1028 oversizeNotifyState =
      (some (AgentError.NotifyErrorTooBig 1028),
       { oversizeNotifyState with
         input := oversizeNotifyState.input.drop 1027
         log := oversizeNotifyState.log ++
           [LogEntry.NotifyErr (le32Dec (oversizeNotifyState.input.take 1027))
             (cString (((oversizeNotifyState.input.take 1027).drop 4).take
               1023))] }) :=
  ⟨(C5_notify_error_thresholds 3 smallNotifyState).1 (by decide),
   (C5_notify_error_thresholds 6 smallNotifyState).2.1 (by decide)
     (by decide) (by decide),
   (C5_notify_error_thresholds 1028 oversizeNotifyState).2.2 (by decide)
     (by decide)⟩

/-- dispatching a well-formed Capabilities message: the 8-byte header
`[1, 0, 1, 0] ++ le32 len` followed by a `len`-byte body is consumed and
exactly one empty-bodied Capabilities reply is written. -/
theorem caps_dispatch_eq (st : AgentState) (len : Nat) (body rest : List Nat)
    (hin : st.input = 1 :: 0 :: 1 :: 0 :: (len % 256) :: (len / 256 % 256) ::
      (len / 65536 % 256) :: (len / 16777216 % 256) :: (body ++ rest))
    (hbody : body.length = len)
    (hmax : len ≤ STREAM_MSG_CAPABILITIES_MAX_BYTES) :
    read_command_from_device st =
      (none,
       { st with input := rest, output := st.output ++ capabilitiesReply }) := by
  have htake : (1 :: 0 :: 1 :: 0 :: (len % 256) :: (len / 256 % 256) ::
      (len / 65536 % 256) :: (len / 16777216 % 256) :: (body ++ rest)).take 8 =
      [1, 0, 1, 0, len % 256, len / 256 % 256, len / 65536 % 256,
       len / 16777216 % 256] := rfl
  have hdrop : (1 :: 0 :: 1 :: 0 :: (len % 256) :: (len / 256 % 256) ::
      (len / 65536 % 256) :: (len / 16777216 % 256) :: (body ++ rest)).drop 8 =
      body ++ rest := rfl
  have hmax1024 : len ≤ 1024 := hmax
  have hsize : (decodeHeader [1, 0, 1, 0, len % 256, len / 256 % 256,
      len / 65536 % 256, len / 16777216 % 256]).size = len := by
    show len % 256 + 256 * (len / 256 % 256) + 65536 * (len / 65536 % 256)
        + 16777216 * (len / 16777216 % 256) = len
    omega
  have hver : ¬ (decodeHeader [1, 0, 1, 0, len % 256, len / 256 % 256,
      len / 65536 % 256, len / 16777216 % 256]).protocol_version ≠
      STREAM_DEVICE_PROTOCOL := fun h => h rfl
  have htype : (decodeHeader [1, 0, 1, 0, len % 256, len / 256 % 256,
      len / 65536 % 256, len / 16777216 % 256]).type =
      STREAM_TYPE_CAPABILITIES := rfl
  simp only [read_command_from_device]
  rw [hin]
  rw [if_neg (by simp only [List.length_cons]; omega)]
  rw [htake, hdrop]
  rw [if_neg hver, if_pos htype, hsize]
  simp only [handle_stream_capabilities]
  rw [if_neg (by simp only [STREAM_MSG_CAPABILITIES_MAX_BYTES]; omega)]
  rw [if_neg (by simp only [List.length_append, hbody]; omega)]
  rw [← hbody, List.drop_left]

/-- Claim C6: every inbound Capabilities message whose body length is within
the fixed maximum produces exactly one outbound empty-bodied Capabilities
reply, and the reply bytes are exactly `01 00 01 00 00 00 00 00`. -/
theorem C6_capabilities_reply_bytes (st : AgentState) (len : Nat)
    (body rest : List Nat)
    (hin : st.input = 1 :: 0 :: 1 :: 0 :: (len % 256) :: (len / 256 % 256) ::
      (len / 65536 % 256) :: (len / 16777216 % 256) :: (body ++ rest))
    (hbody : body.length = len)
    (hmax : len ≤ STREAM_MSG_CAPABILITIES_MAX_BYTES) :
    read_command_from_device st =
      (none,
       { st with
         input := rest
         output := st.output ++ capabilitiesReply }) ∧
    capabilitiesReply = [1, 0, 1, 0, 0, 0, 0, 0] :=
  ⟨caps_dispatch_eq st len body rest hin hbody hmax, rfl⟩

def s1State : AgentState :=
  { session := { streaming_requested := false, quit_requested := false
               , client_codecs := ∅ }
  , input := [1, 0, 1, 0, 4, 0, 0, 0, 222, 173, 190, 239]
  , output := [], log := [] }

theorem C6_capabilities_reply_bytes_witness :
    read_command_from_device s1State =
      (none,
       { s1State with
         input := ([] : List Nat)
         output := s1State.output ++ capabilitiesReply }) ∧
    capabilitiesReply = [1, 0, 1, 0, 0, 0, 0, 0] :=
  C6_capabilities_reply_bytes s1State 4 [222, 173, 190, 239] []
    (by decide) (by decide) (by decide)

/-- Claim C7: a header whose `protocol_version` is not the protocol constant
is rejected with the bad-version error after consuming exactly the 8 header
bytes — the body (here `rest`) stays unread, the session state, output and
log are untouched, and no handler is dispatched. -/
theorem C7_bad_version_stops_dispatch (st : AgentState)
    (v p b2 b3 b4 b5 b6 b7 : Nat) (rest : List Nat)
    (hin : st.input = v :: p :: b2 :: b3 :: b4 :: b5 :: b6 :: b7 :: rest)
    (hv : v ≠ 1) :
    read_command_from_device st =
      (some (AgentError.BadVersion v), { st with input := rest }) := by
  have htake : (v :: p :: b2 :: b3 :: b4 :: b5 :: b6 :: b7 :: rest).take 8 =
      [v, p, b2, b3, b4, b5, b6, b7] := rfl
  have hdrop : (v :: p :: b2 :: b3 :: b4 :: b5 :: b6 :: b7 :: rest).drop 8 =
      rest := rfl
  have hver : (decodeHeader [v, p, b2, b3, b4, b5, b6, b7]).protocol_version ≠
      STREAM_DEVICE_PROTOCOL := hv
  simp only [read_command_from_device]
  rw [hin]
  rw [if_neg (by simp only [List.length_cons]; omega)]
  rw [htake, hdrop]
  rw [if_pos hver]
  rfl

theorem C7_bad_version_stops_dispatch_witness :
    read_command_from_device
      { session := { streaming_requested := false, quit_requested := false
                   , client_codecs := ∅ }
      , input := [2, 0, 1, 0, 4, 0, 0, 0, 222, 173, 190, 239]
      , output := [], log := [] } =
      (some (AgentError.BadVersion 2),
       { session := { streaming_requested := false, quit_requested := false
                    , client_codecs := ∅ }
       , input := [222, 173, 190, 239]
       , output := [], log := [] }) :=
  C7_bad_version_stops_dispatch _ 2 0 1 0 4 0 0 0 [222, 173, 190, 239]
    (by decide) (by decide)

def twoPendingCapsState : AgentState :=
  { session := { streaming_requested := false, quit_requested := false
               , client_codecs := ∅ }
  , input := [1, 0, 1, 0, 0, 0, 0, 0] ++ [1, 0, 1, 0, 0, 0, 0, 0]
  , output := [], log := [] }

/-- Claim C9 is false as stated: with two complete Capabilities messages
already readable, the non-blocking inter-frame `read_command` processes only
the first — it emits exactly one reply and leaves the second message (a full
8-byte readable command) unconsumed on the device. -/
theorem C9_drains_at_most_one_message :
    read_command_nonblocking twoPendingCapsState =
      (none,
       { twoPendingCapsState with
         input := [1, 0, 1, 0, 0, 0, 0, 0]
         output := [1, 0, 1, 0, 0, 0, 0, 0] }) ∧
    have_something_to_read
      (read_command_nonblocking twoPendingCapsState).2 = true := by
  exact ⟨by decide, by decide⟩

/-- Claim C9 (amended): between frames the capture loop calls `read_command`
in non-blocking mode, which never blocks and processes at most one pending
control message: with `quit_requested` set, or with nothing readable, it
returns with the state unchanged, and with a well-formed Capabilities
message at the head of the readable bytes it consumes exactly that one
message (emitting its reply) and leaves every byte after it — including any
further complete pending messages — unread until after the next frame. -/
theorem C9_nonblocking_single_command (st : AgentState) (len : Nat)
    (body rest : List Nat) :
    (st.session.quit_requested = true →
      read_command_nonblocking st = (none, st)) ∧
    (st.input = [] → read_command_nonblocking st = (none, st)) ∧
    (st.session.quit_requested = false →
      st.input = 1 :: 0 :: 1 :: 0 :: (len % 256) :: (len / 256 % 256) ::
        (len / 65536 % 256) :: (len / 16777216 % 256) :: (body ++ rest) →
      body.length = len → len ≤ STREAM_MSG_CAPABILITIES_MAX_BYTES →
      read_command_nonblocking st =
        (none,
         { st with
           input := rest
           output := st.output ++ capabilitiesReply })) := by
  refine ⟨?_, ?_, ?_⟩
  · intro hq
    simp [read_command_nonblocking, hq]
  · intro hempty
    simp [read_command_nonblocking, have_something_to_read, hempty]
  · intro hq hin hbody hmax
    have hne : have_something_to_read st = true := by
      simp [have_something_to_read, hin]
    simp only [read_command_nonblocking, hq, hne, if_true, Bool.false_eq_true,
      if_false]
    exact caps_dispatch_eq st len body rest hin hbody hmax

theorem C9_nonblocking_single_command_witness :
    read_command_nonblocking
      { session := { streaming_requested := false, quit_requested := true
                   , client_codecs := ∅ }
      , input := [1, 0, 1, 0, 0, 0, 0, 0], output := [], log := [] } =
      (none,
       { session := { streaming_requested := false, quit_requested := true
                    , client_codecs := ∅ }
       , input := [1, 0, 1, 0, 0, 0, 0, 0], output := [], log := [] }) ∧
    read_command_nonblocking
      { session := { streaming_requested := false, quit_requested := false
                   , client_codecs := ∅ }
      , input := [], output := [], log := [] } =
      (none,
       { session := { streaming_requested := false, quit_requested := false
                    , client_codecs := ∅ }
       , input := [], output := [], log := [] }) ∧
    read_command_nonblocking s1State =
      (none,
       { s1State with
         input := ([] : List Nat)
         output := s1State.output ++ capabilitiesReply }) :=
  ⟨(C9_nonblocking_single_command _ 0 [] []).1 rfl,
   (C9_nonblocking_single_command _ 0 [] []).2.1 rfl,
   (C9_nonblocking_single_command s1State 4 [222, 173, 190, 239] []).2.2
     rfl (by decide) (by decide) (by decide)⟩
